import Mathlib

/-!
# Verification of the browser-side HTTP client layer

Shallow embedding of the two client classes (`ApiChatService`, `ApiAuthService`)
and the static `ApiErrorHandler`, together with proofs settling the frozen
claims about the request/response/error pipeline.

Modelling conventions:
* JavaScript runtime values flowing through the pipeline are modelled by the
  inductive `Json` below (numbers as integers; the claims never involve
  fractional numbers).  `undefined` results of property access are modelled
  by `Option Json` (`none` = absent/undefined).
* The platform `fetch` call is modelled by its outcome (`FetchOutcome`):
  either the call itself threw (transport failure) or it produced a response
  with a status, a status text, a content-type header and a body.
* `async` methods are modelled as functions from the pipeline outcome to the
  outcome of the promise they return.  JavaScript async semantics are kept
  faithfully; in particular `return promise` inside `try`/`catch` *without*
  `await` returns the (possibly rejected) promise before the `catch` clause
  can intercept a rejection, so such a rejection propagates unnormalized.
* The external token store (`TokenManager`) is a single mutable cell; its
  state is threaded explicitly (`TokenState`).
-/

/-- JavaScript values as they appear in parsed JSON bodies.  Numbers are
modelled as integers (no claim involves fractional numbers). -/
inductive Json where
  | null : Json
  | bool (b : Bool) : Json
  | num (n : Int) : Json
  | str (s : String) : Json
  | arr (elems : List Json) : Json
  | obj (fields : List (String × Json)) : Json

/-- JavaScript truthiness test restricted to `Json` values: `null`, `false`,
`0` and the empty string are falsy, everything else is truthy. -/
def jsFalsy : Json → Bool
  | Json.null => true
  | Json.bool b => !b
  | Json.num n => n == 0
  | Json.str s => s == ""
  | Json.arr _ => false
  | Json.obj _ => false

/-- JavaScript property access `v[k]`: defined for objects, `undefined`
(modelled as `none`) on every other value. -/
def jsField : Json → String → Option Json
  | Json.obj fields, k => fields.lookup k
  | _, _ => none

mutual

/-- JavaScript `ToString` as used by `Array.prototype.join`: `null` (and
`undefined`) become the empty string, arrays recursively join with a comma,
plain objects print as "[object Object]". -/
def jsToStr : Json → String
  | Json.null => ""
  | Json.bool b => if b then "true" else "false"
  | Json.num n => toString n
  | Json.str s => s
  | Json.arr xs => jsJoinList "," xs
  | Json.obj _ => "[object Object]"

/-- `Array.prototype.join(sep)` on a list of `Json` elements. -/
def jsJoinList (sep : String) : List Json → String
  | [] => ""
  | [x] => jsToStr x
  | x :: y :: xs => jsToStr x ++ sep ++ jsJoinList sep (y :: xs)

end

/-- Prefix test on character lists (helper for `containsSub`). -/
def charsPrefixOf : List Char → List Char → Bool
  | [], _ => true
  | _ :: _, [] => false
  | a :: as, b :: bs => a = b && charsPrefixOf as bs

/-- Substring containment on character lists (helper for `containsSub`). -/
def charsContain (pat : List Char) : List Char → Bool
  | [] => charsPrefixOf pat []
  | c :: rest => charsPrefixOf pat (c :: rest) || charsContain pat rest

/-- `String.prototype.includes`: substring containment test, used on the
content-type header value. -/
def containsSub (s pat : String) : Bool :=
  charsContain pat.toList s.toList

/-- The expression `statusText || 'Request failed'` shared by every branch of
the message extraction that falls back to the HTTP reason phrase. -/
def statusTextOrFallback (statusText : String) : String :=
  if statusText = "" then "Request failed" else statusText

/-- The tail of `extractErrorMessage` once the `error` field has been ruled
out: `if (Array.isArray(es) && es.length) return es.join('; ');
return statusText || 'Request failed';`. -/
def errorsOrFallback (statusText : String) (payload : Json) : String :=
  match jsField payload "errors" with
  | some (Json.arr xs) =>
    if xs.isEmpty then statusTextOrFallback statusText else jsJoinList "; " xs
  | _ => statusTextOrFallback statusText

/-- `extractErrorMessage(statusText, payload)` of both client classes (the two
copies are textually identical):

  if (!payload) return statusText || 'Request failed';
  const e = (payload as any).error; const es = (payload as any).errors;
  if (e && typeof e === 'string') return e;
  if (Array.isArray(es) && es.length) return es.join('; ');
  return statusText || 'Request failed';

`e && typeof e === 'string'` holds exactly when the `error` field is a
nonempty string. -/
def extractErrorMessage (statusText : String) (payload : Json) : String :=
  if jsFalsy payload then statusTextOrFallback statusText
  else
    match jsField payload "error" with
    | some (Json.str s) =>
      if s = "" then errorsOrFallback statusText payload else s
    | _ => errorsOrFallback statusText payload

/-- `endpoint.startsWith('/')`: the first character is a slash. -/
def startsWithSlash (s : String) : Bool :=
  s.toList.head? = some '/'

/-- `buildUrl(endpoint)` of both client classes: template literal
appending the endpoint to the base URL, prepending '/' when the endpoint
does not already start with one. -/
def buildUrl (baseUrl endpoint : String) : String :=
  baseUrl ++ (if startsWithSlash endpoint then endpoint else "/" ++ endpoint)

/-- A JavaScript error thrown by the platform `fetch`: its `message` property
and its string coercion (used when the message is falsy, via
`fetchError.message || fetchError` inside a template literal). -/
structure JsError where
  message : String
  strRepr : String

/-- The interpolated value of `fetchError.message || fetchError`. -/
def jsErrorText (e : JsError) : String :=
  if e.message = "" then e.strRepr else e.message

/-- The error object thrown by `makeRequest`: an `Error` with `message` and
optional `status` / `body` properties (absent on transport failures). -/
structure ApiError where
  message : String
  status : Option Nat := none
  body : Option Json := none

/-- A `fetch` response as far as the pipeline observes it: `status`,
`statusText`, the `content-type` header (`none` when absent), and the
outcomes of `resp.json()` / `resp.text()` (`none` = the read threw). -/
structure FetchResponse where
  status : Nat
  statusText : String
  contentType : Option String := none
  jsonBody : Option Json := none
  textBody : Option String := none

/-- Outcome of the platform `fetch` call. -/
inductive FetchOutcome where
  | netError (e : JsError) : FetchOutcome
  | ok (r : FetchResponse) : FetchOutcome

/-- `Response.ok`: status in the inclusive range 200-299. -/
def respOk (status : Nat) : Bool :=
  200 ≤ status && status ≤ 299

/-- Body parsing step of `makeRequest`: when the content-type header contains
"application/json" the body is `resp.json()` (`null` on parse failure),
otherwise it is `resp.text()` as a string (`null` on read failure). -/
def parseBody (r : FetchResponse) : Json :=
  let ct := r.contentType.getD ""
  if containsSub ct "application/json" then (r.jsonBody).getD Json.null
  else
    match r.textBody with
    | some t => Json.str t
    | none => Json.null

/-- `makeRequest` of both client classes (the auth copy additionally passes
`credentials: 'include'` to `fetch`, which does not affect the modelled
behaviour).  URL building and header assembly do not influence the response
processing, so the model takes the `fetch` outcome directly:
* `fetch` throws: rethrow `Error('Network request failed: ' + msg)`, with no
  `status` or `body` property;
* non-ok status: throw an error whose message is `extractErrorMessage`, with
  the numeric status and the parsed body attached;
* ok status: return the parsed body unchanged. -/
def makeRequest (o : FetchOutcome) : Except ApiError Json :=
  match o with
  | FetchOutcome.netError e =>
    Except.error { message := "Network request failed: " ++ jsErrorText e }
  | FetchOutcome.ok r =>
    let body := parseBody r
    if respOk r.status then Except.ok body
    else
      Except.error { message := extractErrorMessage r.statusText body,
                     status := some r.status,
                     body := some body }

/-- A JavaScript value reaching `ApiErrorHandler.handle` (typed `unknown`):
either a non-null object — in this codebase always an `Error` shaped like
`ApiError`, carrying `message` and optional `status` / `body` fields, the
only fields the clients ever attach — or a primitive string, or any other
primitive (null, undefined, number, boolean, ...). -/
inductive JsThrown where
  | errObj (e : ApiError) : JsThrown
  | plainStr (s : String) : JsThrown
  | otherVal : JsThrown

/-- The generic fallback of the normalizer. -/
def unexpectedErrorMessage : String :=
  "An unexpected error occurred. Please try again later."

/-- `ApiErrorHandler.handle(error)`: starts from the generic message; for a
non-null object, a `switch` on `err.status` replaces it by a fixed per-code
message (the `switch` compares with `===`, so only the six listed numeric
codes match); for a primitive string the string itself is returned; every
other input keeps the generic message. -/
def ApiErrorHandler.handle : JsThrown → String
  | JsThrown.errObj e =>
    if e.status = some 400 then "Invalid request parameters. Please check your input."
    else if e.status = some 401 then "Authentication required. Please log in again."
    else if e.status = some 403 then "You do not have permission to perform this action."
    else if e.status = some 404 then "The requested resource could not be found."
    else if e.status = some 422 then "Validation failed. Please correct the highlighted fields."
    else if e.status = some 500 then "A server error occurred. Please try again later."
    else unexpectedErrorMessage
  | JsThrown.plainStr s => s
  | JsThrown.otherVal => unexpectedErrorMessage

/-- State of the external `TokenManager` singleton: the stored token, if any.
`setToken` stores a value, `clearToken` removes it.  (A stored `undefined`
is conflated with `null`; no claim distinguishes them.) -/
abbrev TokenState := Option Json

/-- `TokenManager.clearToken()`. -/
def clearToken (_ : TokenState) : TokenState := none

/-- `TokenManager.setToken(v)`. -/
def setToken (v : Json) (_ : TokenState) : TokenState := some v

/-- `ApiAuthService.login(username, password)`: awaits the pipeline; on
success stores `res.token` through the token manager and returns `res.user`;
on failure the `catch` clause normalizes through `ApiErrorHandler.handle` and
rethrows `new Error(message)` (message-only), leaving the token untouched. -/
def ApiAuthService.login (r : Except ApiError Json) (st : TokenState) :
    Except String Json × TokenState :=
  match r with
  | Except.ok res =>
    (Except.ok ((jsField res "user").getD Json.null),
     setToken ((jsField res "token").getD Json.null) st)
  | Except.error e =>
    (Except.error (ApiErrorHandler.handle (JsThrown.errObj e)), st)

/-- `ApiAuthService.register(userData)`: same shape as `login` — awaits the
pipeline, stores `res.token` on success, normalizes and rethrows on failure. -/
def ApiAuthService.register (r : Except ApiError Json) (st : TokenState) :
    Except String Json × TokenState :=
  match r with
  | Except.ok res =>
    (Except.ok ((jsField res "user").getD Json.null),
     setToken ((jsField res "token").getD Json.null) st)
  | Except.error e =>
    (Except.error (ApiErrorHandler.handle (JsThrown.errObj e)), st)

/-- `ApiAuthService.logout()`: awaits the pipeline inside `try`; the `catch`
clause only logs the normalized message; the `finally` clause clears the
token.  The method therefore always resolves and always clears the token. -/
def ApiAuthService.logout (r : Except ApiError Json) (st : TokenState) :
    Except String Unit × TokenState :=
  match r with
  | Except.ok _ => (Except.ok (), clearToken st)
  | Except.error e =>
    let _logged := ApiErrorHandler.handle (JsThrown.errObj e)
    (Except.ok (), clearToken st)

/-- `ApiAuthService.getCurrentUser()`: awaits the pipeline; on success
resolves with the user; in the `catch` clause, status 401 or 403 clears the
token and resolves with `null`, any other failure is normalized and rethrown
as a message-only error with the token untouched. -/
def ApiAuthService.getCurrentUser (r : Except ApiError Json) (st : TokenState) :
    Except String (Option Json) × TokenState :=
  match r with
  | Except.ok user => (Except.ok (some user), st)
  | Except.error e =>
    if e.status = some 401 ∨ e.status = some 403 then
      (Except.ok none, clearToken st)
    else
      (Except.error (ApiErrorHandler.handle (JsThrown.errObj e)), st)

/-- Outcome of a rejected chat-client promise: either the raw pipeline error
propagated uncaught, or a message-only `new Error(message)` produced by the
`catch` clause after normalization. -/
inductive ChatOpError where
  | raw (e : ApiError) : ChatOpError
  | normalized (message : String) : ChatOpError

/-- `ApiChatService.getConversations()`:
`try { return this.makeRequest(...); } catch { ... }` — the promise is
returned *without* `await`, so a rejection is adopted by the caller after the
`try` block has already been exited: the `catch` clause never runs for it and
the raw pipeline error (status and body attached) propagates. -/
def ApiChatService.getConversations (r : Except ApiError Json) :
    Except ChatOpError Json :=
  match r with
  | Except.ok conversations => Except.ok conversations
  | Except.error e => Except.error (ChatOpError.raw e)

/-- `ApiChatService.getConversation(id)`: same `return` without `await`
inside `try`/`catch`; rejections bypass the `catch` clause. -/
def ApiChatService.getConversation (r : Except ApiError Json) :
    Except ChatOpError Json :=
  match r with
  | Except.ok conversation => Except.ok conversation
  | Except.error e => Except.error (ChatOpError.raw e)

/-- `ApiChatService.createConversation(request)`: `return` without `await`;
rejections bypass the `catch` clause. -/
def ApiChatService.createConversation (r : Except ApiError Json) :
    Except ChatOpError Json :=
  match r with
  | Except.ok conversation => Except.ok conversation
  | Except.error e => Except.error (ChatOpError.raw e)

/-- `ApiChatService.getMessages(conversationId)`: `return` without `await`;
rejections bypass the `catch` clause. -/
def ApiChatService.getMessages (r : Except ApiError Json) :
    Except ChatOpError Json :=
  match r with
  | Except.ok messages => Except.ok messages
  | Except.error e => Except.error (ChatOpError.raw e)

/-- `ApiChatService.sendMessage(request)`: `return` without `await`;
rejections bypass the `catch` clause. -/
def ApiChatService.sendMessage (r : Except ApiError Json) :
    Except ChatOpError Json :=
  match r with
  | Except.ok message => Except.ok message
  | Except.error e => Except.error (ChatOpError.raw e)

/-- `ApiChatService.getExpertQueue()`: `return` without `await`; rejections
bypass the `catch` clause. -/
def ApiChatService.getExpertQueue (r : Except ApiError Json) :
    Except ChatOpError Json :=
  match r with
  | Except.ok queue => Except.ok queue
  | Except.error e => Except.error (ChatOpError.raw e)

/-- `ApiChatService.claimConversation(conversationId)`: here the pipeline
call *is* awaited inside `try`, so a rejection is caught, normalized through
`ApiErrorHandler.handle` and rethrown as a message-only error; the response
body is discarded and the method resolves to no value. -/
def ApiChatService.claimConversation (r : Except ApiError Json) :
    Except ChatOpError Unit :=
  match r with
  | Except.ok _ => Except.ok ()
  | Except.error e =>
    Except.error (ChatOpError.normalized (ApiErrorHandler.handle (JsThrown.errObj e)))

/-- `ApiChatService.unclaimConversation(conversationId)`: awaited like
`claimConversation`; rejections are caught and normalized. -/
def ApiChatService.unclaimConversation (r : Except ApiError Json) :
    Except ChatOpError Unit :=
  match r with
  | Except.ok _ => Except.ok ()
  | Except.error e =>
    Except.error (ChatOpError.normalized (ApiErrorHandler.handle (JsThrown.errObj e)))

/-- `ApiChatService.getExpertProfile()`: `return` without `await`; rejections
bypass the `catch` clause. -/
def ApiChatService.getExpertProfile (r : Except ApiError Json) :
    Except ChatOpError Json :=
  match r with
  | Except.ok profile => Except.ok profile
  | Except.error e => Except.error (ChatOpError.raw e)

/-- `ApiChatService.updateExpertProfile(request)`: `return` without `await`;
rejections bypass the `catch` clause. -/
def ApiChatService.updateExpertProfile (r : Except ApiError Json) :
    Except ChatOpError Json :=
  match r with
  | Except.ok profile => Except.ok profile
  | Except.error e => Except.error (ChatOpError.raw e)

/-- `ApiChatService.getExpertAssignmentHistory()`: `return` without `await`;
rejections bypass the `catch` clause. -/
def ApiChatService.getExpertAssignmentHistory (r : Except ApiError Json) :
    Except ChatOpError Json :=
  match r with
  | Except.ok assignments => Except.ok assignments
  | Except.error e => Except.error (ChatOpError.raw e)

/-- Claim C2's error-message derivation exactly as the claim states it: the
body's `error` string field when present (any string), else the `errors`
array joined with "; " (any array, possibly empty), else the status's reason
phrase, else "Request failed".  Written from the claim's words, to be
compared with `extractErrorMessage` from the source. -/
def claimedErrorMessage (statusText : String) (payload : Json) : String :=
  match jsField payload "error" with
  | some (Json.str s) => s
  | _ =>
    match jsField payload "errors" with
    | some (Json.arr xs) => jsJoinList "; " xs
    | _ => statusTextOrFallback statusText

/-- The amended derivation chain: like `claimedErrorMessage`, but the `error`
field is used only when it is a *nonempty* string and the `errors` array only
when it is *nonempty* — otherwise the chain falls through. -/
def amendedErrorMessage (statusText : String) (payload : Json) : String :=
  match jsField payload "error" with
  | some (Json.str s) => if s = "" then errorsOrFallback statusText payload else s
  | _ => errorsOrFallback statusText payload

/-- The initial falsy-payload short-circuit of `extractErrorMessage` is
redundant: on every payload the source function agrees with the plain
derivation chain `amendedErrorMessage`. -/
theorem extractErrorMessage_eq_amended (statusText : String) (payload : Json) :
    extractErrorMessage statusText payload = amendedErrorMessage statusText payload := by
  cases payload <;>
    simp [extractErrorMessage, amendedErrorMessage, jsFalsy, jsField,
      errorsOrFallback] <;>
    split <;> simp_all [statusTextOrFallback]

/-- All leading '/' characters of a string removed. -/
def stripLeadingSlashes (s : String) : String :=
  String.mk (s.toList.dropWhile (fun c => c = '/'))

/-- All trailing '/' characters of a string removed. -/
def stripTrailingSlashes (s : String) : String :=
  String.mk ((s.toList.reverse.dropWhile (fun c => c = '/')).reverse)

/-- Claim C7's URL join exactly as the claim states it: base URL and endpoint
concatenated with exactly one separating slash, regardless of slashes already
present at the junction.  Written from the claim's words, to be compared with
`buildUrl` from the source. -/
def claimedSingleSlashJoin (baseUrl endpoint : String) : String :=
  stripTrailingSlashes baseUrl ++ "/" ++ stripLeadingSlashes endpoint

/-- Claim C3: for every input object whose `status` field is one of 400, 401,
403, 404, 422 or 500, `ApiErrorHandler.handle` returns exactly the fixed
message associated with that code, regardless of the object's `message` and
`body` fields. -/
theorem ApiErrorHandler.handle_fixed_status_messages
    (message : String) (body : Option Json) :
    ApiErrorHandler.handle (JsThrown.errObj { message, status := some 400, body }) =
        "Invalid request parameters. Please check your input." ∧
    ApiErrorHandler.handle (JsThrown.errObj { message, status := some 401, body }) =
        "Authentication required. Please log in again." ∧
    ApiErrorHandler.handle (JsThrown.errObj { message, status := some 403, body }) =
        "You do not have permission to perform this action." ∧
    ApiErrorHandler.handle (JsThrown.errObj { message, status := some 404, body }) =
        "The requested resource could not be found." ∧
    ApiErrorHandler.handle (JsThrown.errObj { message, status := some 422, body }) =
        "Validation failed. Please correct the highlighted fields." ∧
    ApiErrorHandler.handle (JsThrown.errObj { message, status := some 500, body }) =
        "A server error occurred. Please try again later." :=
  ⟨rfl, rfl, rfl, rfl, rfl, rfl⟩

/-- Claim C4 counterexample: an input object carrying the unrecognized status
418 is mapped to the generic fallback, not to any string carried by the
input (neither its `message` nor its body text). -/
theorem ApiErrorHandler.handle_unrecognized_status_counterexample :
    ApiErrorHandler.handle (JsThrown.errObj
      { message := "boom", status := some 418,
        body := some (Json.str "teapot body") }) = unexpectedErrorMessage ∧
    unexpectedErrorMessage ≠ "boom" ∧
    unexpectedErrorMessage ≠ "teapot body" :=
  ⟨rfl, by decide, by decide⟩

/-- Claim C4 (amended): a primitive-string input is returned unchanged; an
object input with an unrecognized (or absent) status yields the generic
fallback message, regardless of its other fields — the "use the string
directly" branch applies only to string inputs, never to objects. -/
theorem ApiErrorHandler.handle_unrecognized_and_string_inputs
    (s : String) (e : ApiError)
    (h400 : e.status ≠ some 400) (h401 : e.status ≠ some 401)
    (h403 : e.status ≠ some 403) (h404 : e.status ≠ some 404)
    (h422 : e.status ≠ some 422) (h500 : e.status ≠ some 500) :
    ApiErrorHandler.handle (JsThrown.errObj e) = unexpectedErrorMessage ∧
    ApiErrorHandler.handle (JsThrown.plainStr s) = s := by
  refine ⟨?_, rfl⟩
  simp [ApiErrorHandler.handle, h400, h401, h403, h404, h422, h500]

/-- Witness for claim C4's amended theorem at status 418 and string input
"hello". -/
theorem ApiErrorHandler.handle_unrecognized_and_string_inputs_witness :
    ApiErrorHandler.handle (JsThrown.errObj { message := "x", status := some 418 }) =
        unexpectedErrorMessage ∧
    ApiErrorHandler.handle (JsThrown.plainStr "hello") = "hello" :=
  ApiErrorHandler.handle_unrecognized_and_string_inputs "hello"
    { message := "x", status := some 418 } (by decide) (by decide) (by decide)
    (by decide) (by decide) (by decide)

/-- Claim C5: `logout()` always resolves (a backend failure is swallowed
after being normalized for the log) and always leaves the token store
cleared, on success and on failure alike. -/
theorem ApiAuthService.logout_always_resolves_and_clears
    (r : Except ApiError Json) (st : TokenState) :
    (ApiAuthService.logout r st).1 = Except.ok () ∧
    (ApiAuthService.logout r st).2 = none := by
  cases r <;> exact ⟨rfl, rfl⟩

/-- Claim C6: `getCurrentUser()` on a failure with status 401 or 403 clears
the stored token and resolves with `null`; on a failure with any other
status it leaves the token unchanged and rejects with the normalized
message-only error. -/
theorem ApiAuthService.getCurrentUser_failure_behavior
    (e : ApiError) (st : TokenState) :
    ((e.status = some 401 ∨ e.status = some 403) →
      ApiAuthService.getCurrentUser (Except.error e) st = (Except.ok none, none)) ∧
    (e.status ≠ some 401 → e.status ≠ some 403 →
      ApiAuthService.getCurrentUser (Except.error e) st =
        (Except.error (ApiErrorHandler.handle (JsThrown.errObj e)), st)) := by
  constructor
  · rintro (h | h) <;> simp [ApiAuthService.getCurrentUser, h, clearToken]
  · intro h1 h2
    simp [ApiAuthService.getCurrentUser, h1, h2]

/-- Witness for claim C6's theorem: status 401 clears the token and resolves
with `null`; status 500 keeps the token and rejects with the fixed 500
message. -/
theorem ApiAuthService.getCurrentUser_failure_witness :
    ApiAuthService.getCurrentUser
        (Except.error { message := "m", status := some 401 })
        (some (Json.str "tok")) = (Except.ok none, none) ∧
    ApiAuthService.getCurrentUser
        (Except.error { message := "m", status := some 500 })
        (some (Json.str "tok")) =
      (Except.error "A server error occurred. Please try again later.",
       some (Json.str "tok")) := by
  constructor
  · exact (ApiAuthService.getCurrentUser_failure_behavior
      { message := "m", status := some 401 } (some (Json.str "tok"))).1
      (Or.inl rfl)
  · exact (ApiAuthService.getCurrentUser_failure_behavior
      { message := "m", status := some 500 } (some (Json.str "tok"))).2
      (by decide) (by decide)

/-- Claim C10: a failed `login()` or `register()` leaves the token store
unchanged — `setToken` runs only after a successful response (shown by the
success conjuncts, where the stored value is the response's `token` field). -/
theorem ApiAuthService.login_register_failure_preserves_token
    (e : ApiError) (res : Json) (st : TokenState) :
    (ApiAuthService.login (Except.error e) st).2 = st ∧
    (ApiAuthService.register (Except.error e) st).2 = st ∧
    (ApiAuthService.login (Except.ok res) st).2 =
        setToken ((jsField res "token").getD Json.null) st ∧
    (ApiAuthService.register (Except.ok res) st).2 =
        setToken ((jsField res "token").getD Json.null) st :=
  ⟨rfl, rfl, rfl, rfl⟩

/-- Claim C2 counterexample: a 418 response whose JSON body is the object
with `error` mapped to the empty string.  The claim's derivation
(`claimedErrorMessage`) uses the present `error` string field and yields "",
but the pipeline's error carries the reason phrase "Teapot" instead — the
code uses the `error` field only when it is a nonempty string. -/
theorem claimedErrorMessage_counterexample :
    makeRequest (FetchOutcome.ok
      { status := 418, statusText := "Teapot",
        contentType := some "application/json",
        jsonBody := some (Json.obj [("error", Json.str "")]) }) =
      Except.error
        { message := "Teapot", status := some 418,
          body := some (Json.obj [("error", Json.str "")]) } ∧
    claimedErrorMessage "Teapot" (Json.obj [("error", Json.str "")]) = "" ∧
    ("Teapot" : String) ≠ "" :=
  ⟨rfl, rfl, by decide⟩

/-- Claim C2 (amended): for every response whose status is outside the
success range, the pipeline raises an error whose message is the body's
`error` field when that is a *nonempty* string, else the body's `errors`
array joined with "; " when that is a *nonempty* array, else the status's
reason phrase, else "Request failed" — with the numeric status and the raw
parsed body attached to the error object. -/
theorem makeRequest_error_message_derivation (r : FetchResponse)
    (h : respOk r.status = false) :
    makeRequest (FetchOutcome.ok r) =
      Except.error
        { message := amendedErrorMessage r.statusText (parseBody r),
          status := some r.status,
          body := some (parseBody r) } := by
  simp [makeRequest, h, extractErrorMessage_eq_amended]

/-- Witness for claim C2's amended theorem: a 404 response with body errors
list ["A", "B"] raises the message "A; B" with status and body attached. -/
theorem makeRequest_error_message_derivation_witness :
    makeRequest (FetchOutcome.ok
      { status := 404, statusText := "Not Found",
        contentType := some "application/json",
        jsonBody := some
          (Json.obj [("errors", Json.arr [Json.str "A", Json.str "B"])]) }) =
      Except.error
        { message := "A; B", status := some 404,
          body := some
            (Json.obj [("errors", Json.arr [Json.str "A", Json.str "B"])]) } :=
  makeRequest_error_message_derivation
    { status := 404, statusText := "Not Found",
      contentType := some "application/json",
      jsonBody := some
        (Json.obj [("errors", Json.arr [Json.str "A", Json.str "B"])]) }
    (by decide)

/-- Claim C8: when the platform network call itself throws, the pipeline
rejects with an error whose message is "Network request failed: " followed
by the underlying failure's message, and this error carries no status and no
body; the model performs the single `fetch`, so no retry exists. -/
theorem makeRequest_network_failure (e : JsError) :
    makeRequest (FetchOutcome.netError e) =
      Except.error
        { message := "Network request failed: " ++ jsErrorText e,
          status := none, body := none } ∧
    (e.message ≠ "" →
      makeRequest (FetchOutcome.netError e) =
        Except.error
          { message := "Network request failed: " ++ e.message,
            status := none, body := none }) := by
  refine ⟨rfl, fun h => ?_⟩
  simp [makeRequest, jsErrorText, h]

/-- Witness for claim C8's theorem at a concrete connection failure. -/
theorem makeRequest_network_failure_witness :
    makeRequest (FetchOutcome.netError
      { message := "connection refused", strRepr := "TypeError" }) =
      Except.error
        { message := "Network request failed: connection refused",
          status := none, body := none } :=
  (makeRequest_network_failure
    { message := "connection refused", strRepr := "TypeError" }).2 (by decide)

/-- Claim C9: every response with a 2xx status and a JSON content type whose
body parses successfully resolves to exactly the parsed body, unchanged. -/
theorem makeRequest_success_passthrough (r : FetchResponse) (j : Json)
    (h200 : 200 ≤ r.status) (h299 : r.status ≤ 299)
    (hct : containsSub (r.contentType.getD "") "application/json" = true)
    (hj : r.jsonBody = some j) :
    makeRequest (FetchOutcome.ok r) = Except.ok j := by
  have hok : respOk r.status = true := by
    simp [respOk]
    omega
  simp [makeRequest, hok, parseBody, hct, hj]

/-- Witness for claim C9's theorem: the spec's scenario, HTTP 200 with JSON
body a one-element array of the object mapping id to "1". -/
theorem makeRequest_success_passthrough_witness :
    makeRequest (FetchOutcome.ok
      { status := 200, statusText := "OK",
        contentType := some "application/json",
        jsonBody := some (Json.arr [Json.obj [("id", Json.str "1")]]) }) =
      Except.ok (Json.arr [Json.obj [("id", Json.str "1")]]) :=
  makeRequest_success_passthrough
    { status := 200, statusText := "OK",
      contentType := some "application/json",
      jsonBody := some (Json.arr [Json.obj [("id", Json.str "1")]]) }
    (Json.arr [Json.obj [("id", Json.str "1")]])
    (by decide) (by decide) (by decide) rfl

/-- Dropping a predicate-satisfying prefix never lengthens a list. -/
theorem charsDropWhileLengthLe (p : Char → Bool) (l : List Char) :
    (l.dropWhile p).length ≤ l.length := by
  induction l with
  | nil => simp
  | cons c t ih =>
    rw [List.dropWhile_cons]
    split
    · simp only [List.length_cons]
      omega
    · simp

/-- A string whose first character is a slash strictly shrinks under
`stripLeadingSlashes`, so it is never equal to its own strip. -/
theorem stripLeadingSlashes_ne_of_slash (ep : String)
    (h : startsWithSlash ep = true) : stripLeadingSlashes ep ≠ ep := by
  obtain ⟨l⟩ := ep
  cases l with
  | nil => simp [startsWithSlash] at h
  | cons c t =>
    simp [startsWithSlash] at h
    subst h
    simp only [stripLeadingSlashes, List.dropWhile_cons]
    intro heq
    injection heq with heq
    have hle := charsDropWhileLengthLe (fun c => c = '/') t
    have : (List.dropWhile (fun c => c = '/') t).length = t.length + 1 := by
      rw [show List.dropWhile (fun c => decide (c = '/')) t = '/' :: t from by
        simpa using heq]
      simp
    omega

/-- Claim C7 counterexample: for the base URL "http://x/" (trailing slash)
and endpoint "a", `buildUrl` yields "http://x//a" — two slashes at the
junction — while joining with exactly one separating slash
(`claimedSingleSlashJoin`, the claim as stated) yields "http://x/a". -/
theorem buildUrl_single_slash_counterexample :
    buildUrl "http://x/" "a" = "http://x//a" ∧
    claimedSingleSlashJoin "http://x/" "a" = "http://x/a" ∧
    ("http://x//a" : String) ≠ "http://x/a" :=
  ⟨rfl, rfl, by decide⟩

/-- Claim C7 (amended): for every base URL the endpoint spellings
"conversations" and "/conversations" produce the same request URL; in
general the builder prepends a separating slash exactly when the endpoint
does not already start with one, and it concatenates base URL and endpoint
with exactly one separating slash only under the proviso that the base URL
has no trailing slash and the endpoint no leading one (it never deduplicates
slashes already present at the junction). -/
theorem buildUrl_amended_join (base ep : String) :
    buildUrl base "conversations" = buildUrl base "/conversations" ∧
    (startsWithSlash ep = false → buildUrl base ep = base ++ "/" ++ ep) ∧
    (startsWithSlash ep = true → buildUrl base ep = base ++ ep) ∧
    (stripTrailingSlashes base = base → stripLeadingSlashes ep = ep →
      buildUrl base ep = claimedSingleSlashJoin base ep) := by
  refine ⟨rfl, fun h => ?_, fun h => ?_, fun hb he => ?_⟩
  · simp [buildUrl, h, String.append_assoc]
  · simp [buildUrl, h]
  · have hns : startsWithSlash ep = false := by
      cases hsw : startsWithSlash ep
      · rfl
      · exact absurd he (stripLeadingSlashes_ne_of_slash ep hsw)
    simp [buildUrl, hns, claimedSingleSlashJoin, hb, he, String.append_assoc]

/-- Witness for claim C7's amended theorem at the base URL of the spec's
scenario, exercising all four conjuncts. -/
theorem buildUrl_amended_join_witness :
    buildUrl "https://api.example.com" "conversations" =
        buildUrl "https://api.example.com" "/conversations" ∧
    buildUrl "https://api.example.com" "conversations" =
        "https://api.example.com" ++ "/" ++ "conversations" ∧
    buildUrl "https://api.example.com" "/conversations" =
        "https://api.example.com" ++ "/conversations" ∧
    buildUrl "https://api.example.com" "conversations" =
        claimedSingleSlashJoin "https://api.example.com" "conversations" := by
  have h1 := buildUrl_amended_join "https://api.example.com" "conversations"
  have h2 := buildUrl_amended_join "https://api.example.com" "/conversations"
  exact ⟨h1.1, h1.2.1 (by decide), h2.2.2.1 (by decide),
    h1.2.2.2 (by decide) (by decide)⟩

/-- Claim C1 (code bug): a pipeline rejection in `getConversations` is not
normalized.  The method returns the `makeRequest` promise without `await`
inside its `try` block, so the rejection is adopted after the `try` scope is
gone: the `catch` clause (which would call `ApiErrorHandler.handle`) is dead
code for rejections, and the raw error — status and body still attached —
propagates to the caller.  The same holds for every other chat method that
returns without awaiting; `claimConversation`, which does `await`, rejects
with the normalized message-only error, as the last conjunct shows. -/
theorem ApiChatService.getConversations_uncaught_rejection :
    ApiChatService.getConversations
        (Except.error
          { message := "boom", status := some 500,
            body := some (Json.obj [("error", Json.str "boom")]) }) =
      Except.error (ChatOpError.raw
        { message := "boom", status := some 500,
          body := some (Json.obj [("error", Json.str "boom")]) }) ∧
    ApiChatService.claimConversation
        (Except.error
          { message := "boom", status := some 500,
            body := some (Json.obj [("error", Json.str "boom")]) }) =
      Except.error (ChatOpError.normalized
        "A server error occurred. Please try again later.") :=
  ⟨rfl, rfl⟩
